import Mathlib

/-!
Verification development for the Game Boy link-cable trade protocol engine in
applications/external/pkmn_trader/views/trade.c.  The session state machine
(getTradeCentreResponse), the role-negotiation and menu handlers
(getConnectResponse, getMenuResponse) and the bit shifter
(transferBit, input_clk_gameboy) are shallowly embedded as pure functions on an
explicit state record.  Bytes are modelled as Nat values below 256; the two
trade blocks are modelled as flat byte stores (functions from byte offset to
byte value), matching the flat uint8_t views the C code takes of them.
-/

namespace PkmnTrade

set_option maxRecDepth 20000

/-- Blank or idle byte. -/
def PKMN_BLANK : Nat := 0x00

/-- Leader or master role marker. -/
def PKMN_MASTER : Nat := 0x01

/-- Follower or slave role marker. -/
def PKMN_SLAVE : Nat := 0x02

/-- Connected marker. -/
def PKMN_CONNECTED : Nat := 0x60

/-- Explicit trade accept byte. -/
def PKMN_TRADE_ACCEPT : Nat := 0x62

/-- Explicit trade reject byte. -/
def PKMN_TRADE_REJECT : Nat := 0x61

/-- Leave-the-trade-table byte. -/
def PKMN_TABLE_LEAVE : Nat := 0x6f

/-- Mask for the party-slot selection bytes. -/
def PKMN_SEL_NUM_MASK : Nat := 0x60

/-- Selection byte for the first party slot. -/
def PKMN_SEL_NUM_ONE : Nat := 0x60

/-- Menu item 1 selected (the trade centre). -/
def ITEM_1_SELECTED : Nat := 0xD4

/-- Menu item 2 selected (the colosseum). -/
def ITEM_2_SELECTED : Nat := 0xD5

/-- Menu item 3 selected (break link). -/
def ITEM_3_SELECTED : Nat := 0xD6

/-- Trade centre selection byte, an alias of ITEM_1_SELECTED. -/
def PKMN_TRADE_CENTRE : Nat := ITEM_1_SELECTED

/-- Colosseum selection byte, an alias of ITEM_2_SELECTED. -/
def PKMN_COLOSSEUM : Nat := ITEM_2_SELECTED

/-- Break-link byte, an alias of ITEM_3_SELECTED. -/
def PKMN_BREAK_LINK : Nat := ITEM_3_SELECTED

/-- Preamble marker byte. -/
def SERIAL_PREAMBLE_BYTE : Nat := 0xFD

/-- Number of preamble markers counted in the patch header phase. -/
def SERIAL_PREAMBLE_LENGTH : Nat := 6

/-- Number of bytes of the trade preamble counted in the random phase. -/
def SERIAL_TRADE_PREAMBLE_LENGTH : Nat := 9

/-- Number of preamble markers counted in the init phase, also the number of
random seed bytes. -/
def SERIAL_RNS_LENGTH : Nat := 10

/-- Terminator marker between the two halves of the patch list. -/
def SERIAL_PATCH_LIST_PART_TERMINATOR : Nat := 0xFF

/-- Filler byte standing for no data. -/
def SERIAL_NO_DATA_BYTE : Nat := 0xFE

/-- Session phases of the trade centre state machine, in declaration order of
the C enum trade_centre_state_t. -/
inductive trade_centre_state_t where
  | TRADE_RESET
  | TRADE_INIT
  | TRADE_RANDOM
  | TRADE_DATA
  | TRADE_PATCH_HEADER
  | TRADE_PATCH_DATA
  | TRADE_SELECT
  | TRADE_PENDING
  | TRADE_CONFIRMATION
  | TRADE_DONE
deriving DecidableEq

open trade_centre_state_t

/-- Position of a phase in the declared order of trade_centre_state_t. -/
def phaseIdx : trade_centre_state_t → Nat
  | TRADE_RESET => 0
  | TRADE_INIT => 1
  | TRADE_RANDOM => 2
  | TRADE_DATA => 3
  | TRADE_PATCH_HEADER => 4
  | TRADE_PATCH_DATA => 5
  | TRADE_SELECT => 6
  | TRADE_PENDING => 7
  | TRADE_CONFIRMATION => 8
  | TRADE_DONE => 9

/-- Immediate successor of a phase in the declared order; the last phase wraps
to the initial phase. -/
def nextPhase : trade_centre_state_t → trade_centre_state_t
  | TRADE_RESET => TRADE_INIT
  | TRADE_INIT => TRADE_RANDOM
  | TRADE_RANDOM => TRADE_DATA
  | TRADE_DATA => TRADE_PATCH_HEADER
  | TRADE_PATCH_HEADER => TRADE_PATCH_DATA
  | TRADE_PATCH_DATA => TRADE_SELECT
  | TRADE_SELECT => TRADE_PENDING
  | TRADE_PENDING => TRADE_CONFIRMATION
  | TRADE_CONFIRMATION => TRADE_DONE
  | TRADE_DONE => TRADE_RESET

/-- Status values of the render model, mirroring render_gameboy_state_t. -/
inductive render_gameboy_state_t where
  | GAMEBOY_CONN_FALSE
  | GAMEBOY_CONN_TRUE
  | GAMEBOY_READY
  | GAMEBOY_WAITING
  | GAMEBOY_TRADE_PENDING
  | GAMEBOY_TRADING
deriving DecidableEq

open render_gameboy_state_t

/-- Modelled from the spec: the TradeBlock layout lives in pokemon_app.h, which
is not among the provided source files.  The spec fixes the field order as
trainer name, party count and species list, six creature records, six
original-trainer names, six nicknames, with 11-byte name fields and 44-byte
Generation-I creature records, for a total of 415 bytes.  Name field size. -/
def NAME_SIZE : Nat := 11

/-- Modelled from the spec: size in bytes of one Generation-I creature record
(struct pokemon_structure). -/
def PKMN_STRUCT_SIZE : Nat := 44

/-- Modelled from the spec: flat offset of the party_members species array
inside a TradeBlock (after an 11-byte trainer name and a 1-byte party count). -/
def partyMembersOffset : Nat := 12

/-- Modelled from the spec: flat offset of the six creature records inside a
TradeBlock (party_members holds 6 species bytes plus a terminator). -/
def partyOffset : Nat := 19

/-- Modelled from the spec: flat offset of the six original-trainer names. -/
def otNameOffset : Nat := partyOffset + 6 * PKMN_STRUCT_SIZE

/-- Modelled from the spec: flat offset of the six nicknames. -/
def nicknameOffset : Nat := otNameOffset + 6 * NAME_SIZE

/-- Modelled from the spec: total flat size of a TradeBlock, 415 bytes. -/
def tradeBlockSize : Nat := nicknameOffset + 6 * NAME_SIZE

/-- Pointwise update of a flat byte store. -/
def updateFn (f : Nat → Nat) (i v : Nat) : Nat → Nat :=
  fun j => if j = i then v else f j

/-- Copy of len bytes from src at sOff into dst at dOff, leaving every other
position of dst unchanged; this models memcpy between the flat views of two
distinct blocks. -/
def copyBytes (dst src : Nat → Nat) (dOff sOff len : Nat) : Nat → Nat :=
  fun j => if dOff ≤ j ∧ j < dOff + len then src (sOff + (j - dOff)) else dst j

/-- Combined state of the trade context, the static locals of
getTradeCentreResponse (counter, patch_pt_2, in_pokemon_num) and the view
model fields the handlers write (gameboy_status, curr_pokemon).  The two
blocks and the patch list are flat byte stores; pokemon_table abstracts the
external pokemon_table_get_num_from_index lookup, and plist_recreate_pending
records that the deferred patch-list rebuild callback has been scheduled. -/
structure TradeState where
  trade_centre_state : trade_centre_state_t
  counter : Nat
  patch_pt_2 : Bool
  in_pokemon_num : Nat
  trade_block : Nat → Nat
  input_block : Nat → Nat
  patch_list : Nat → Nat
  pokemon_table : Nat → Nat
  gameboy_status : render_gameboy_state_t
  curr_pokemon : Nat
  plist_recreate_pending : Bool

/-- Body of the TRADE_PATCH_DATA case of getTradeCentreResponse; it is shared
with the TRADE_PATCH_HEADER case, whose C code falls through into it for the
same input byte. -/
def patchDataStep (t : TradeState) (inb send : Nat) : TradeState × Nat :=
  let c := t.counter + 1
  let send1 := if c > 7 then t.patch_list (c - 8) else send
  let t1 :=
    if inb = PKMN_BLANK then t
    else if inb = SERIAL_PATCH_LIST_PART_TERMINATOR then { t with patch_pt_2 := true }
    else if t.patch_pt_2 then
      { t with input_block :=
          updateFn t.input_block (partyOffset + (0xFB + inb)) SERIAL_NO_DATA_BYTE }
    else
      { t with input_block :=
          updateFn t.input_block (partyOffset + (inb - 1)) SERIAL_NO_DATA_BYTE }
  let t2 := { t1 with counter := c }
  if c = 196 then ({ t2 with trade_centre_state := TRADE_SELECT }, send1)
  else (t2, send1)

/-- Body of the TRADE_PENDING case of getTradeCentreResponse; it is shared
with the TRADE_SELECT case, whose C code falls through into it for the same
input byte. -/
def pendingStep (t : TradeState) (inb send : Nat) : TradeState × Nat :=
  if inb = PKMN_TABLE_LEAVE then
    ({ t with trade_centre_state := TRADE_RESET, gameboy_status := GAMEBOY_READY },
     PKMN_TABLE_LEAVE)
  else if inb &&& PKMN_SEL_NUM_MASK = PKMN_SEL_NUM_MASK then
    ({ t with in_pokemon_num := inb, gameboy_status := GAMEBOY_TRADE_PENDING },
     PKMN_SEL_NUM_ONE)
  else if inb = PKMN_BLANK then
    if t.in_pokemon_num ≠ 0 then
      ({ t with trade_centre_state := TRADE_CONFIRMATION,
                in_pokemon_num := t.in_pokemon_num &&& 0x0F }, 0)
    else (t, send)
  else (t, send)

/-- One byte of the trade-centre session state machine: the embedding of
getTradeCentreResponse.  The returned Nat is the response byte (send). -/
def getTradeCentreResponse (t : TradeState) (inb : Nat) : TradeState × Nat :=
  match t.trade_centre_state with
  | TRADE_RESET =>
      ({ t with counter := 0, patch_pt_2 := false, trade_centre_state := TRADE_INIT }, inb)
  | TRADE_INIT =>
      let t1 :=
        if inb = SERIAL_PREAMBLE_BYTE then
          { t with counter := t.counter + 1, gameboy_status := GAMEBOY_WAITING }
        else t
      let send1 :=
        if inb ≠ SERIAL_PREAMBLE_BYTE ∧ inb &&& PKMN_SEL_NUM_MASK = PKMN_SEL_NUM_MASK then
          PKMN_TABLE_LEAVE
        else inb
      if t1.counter = SERIAL_RNS_LENGTH then
        ({ t1 with trade_centre_state := TRADE_RANDOM, counter := 0 }, send1)
      else (t1, send1)
  | TRADE_RANDOM =>
      if t.counter + 1 = SERIAL_RNS_LENGTH + SERIAL_TRADE_PREAMBLE_LENGTH then
        ({ t with trade_centre_state := TRADE_DATA, counter := 0 }, inb)
      else ({ t with counter := t.counter + 1 }, inb)
  | TRADE_DATA =>
      let t1 := { t with input_block := updateFn t.input_block t.counter inb }
      if t.counter + 1 = tradeBlockSize then
        ({ t1 with trade_centre_state := TRADE_PATCH_HEADER, counter := 0 },
         t.trade_block t.counter)
      else ({ t1 with counter := t.counter + 1 }, t.trade_block t.counter)
  | TRADE_PATCH_HEADER =>
      let c := if inb = SERIAL_PREAMBLE_BYTE then t.counter + 1 else t.counter
      if c = SERIAL_PREAMBLE_LENGTH then
        patchDataStep { t with counter := 0, trade_centre_state := TRADE_PATCH_DATA } inb inb
      else ({ t with counter := c }, inb)
  | TRADE_PATCH_DATA =>
      patchDataStep t inb inb
  | TRADE_SELECT =>
      let t1 := { t with in_pokemon_num := 0 }
      if inb = PKMN_BLANK then
        pendingStep { t1 with trade_centre_state := TRADE_PENDING } inb inb
      else (t1, inb)
  | TRADE_PENDING =>
      pendingStep t inb inb
  | TRADE_CONFIRMATION =>
      if inb = PKMN_TRADE_REJECT then
        ({ t with trade_centre_state := TRADE_SELECT, gameboy_status := GAMEBOY_WAITING }, inb)
      else if inb = PKMN_TRADE_ACCEPT then
        ({ t with trade_centre_state := TRADE_DONE }, inb)
      else (t, inb)
  | TRADE_DONE =>
      if inb = PKMN_BLANK then
        let n := t.in_pokemon_num
        let tb1 := updateFn t.trade_block partyMembersOffset
          (t.input_block (partyMembersOffset + n))
        let tb2 := copyBytes tb1 t.input_block partyOffset
          (partyOffset + n * PKMN_STRUCT_SIZE) PKMN_STRUCT_SIZE
        let tb3 := copyBytes tb2 t.input_block nicknameOffset
          (nicknameOffset + n * NAME_SIZE) NAME_SIZE
        let tb4 := copyBytes tb3 t.input_block otNameOffset
          (otNameOffset + n * NAME_SIZE) NAME_SIZE
        ({ t with trade_centre_state := TRADE_RESET,
                  gameboy_status := GAMEBOY_TRADING,
                  trade_block := tb4,
                  curr_pokemon := t.pokemon_table (tb4 partyMembersOffset),
                  plist_recreate_pending := true }, inb)
      else (t, inb)

/-- Embedding of getConnectResponse: role negotiation while not connected. -/
def getConnectResponse (t : TradeState) (inb : Nat) : TradeState × Nat :=
  if inb = PKMN_CONNECTED then
    ({ t with gameboy_status := GAMEBOY_CONN_TRUE }, PKMN_CONNECTED)
  else if inb = PKMN_MASTER then (t, PKMN_SLAVE)
  else if inb = PKMN_BLANK then (t, PKMN_BLANK)
  else ({ t with gameboy_status := GAMEBOY_CONN_FALSE }, PKMN_BREAK_LINK)

/-- Embedding of getMenuResponse: menu mirroring while connected, before the
trade table is entered. -/
def getMenuResponse (t : TradeState) (inb : Nat) : TradeState × Nat :=
  if inb = PKMN_CONNECTED then (t, PKMN_CONNECTED)
  else if inb = PKMN_TRADE_CENTRE then
    ({ t with gameboy_status := GAMEBOY_READY }, PKMN_BLANK)
  else if inb = PKMN_COLOSSEUM ∨ inb = PKMN_BREAK_LINK ∨ inb = PKMN_MASTER then
    ({ t with gameboy_status := GAMEBOY_CONN_FALSE }, PKMN_BREAK_LINK)
  else (t, inb)

/-- Dispatch of a completed input byte to the handler selected by the current
status, as done in transferBit. -/
def processByte (t : TradeState) (inb : Nat) : TradeState × Nat :=
  match t.gameboy_status with
  | GAMEBOY_CONN_FALSE => getConnectResponse t inb
  | GAMEBOY_CONN_TRUE => getMenuResponse t inb
  | _ => getTradeCentreResponse t inb

/-- Fold of the trade-centre state machine over a list of input bytes,
keeping only the state. -/
def runState (t : TradeState) (bs : List Nat) : TradeState :=
  bs.foldl (fun s b => (getTradeCentreResponse s b).1) t

/-- Fold of the trade-centre state machine over a list of input bytes,
collecting the emitted response bytes. -/
def runTrace (t : TradeState) (bs : List Nat) : TradeState × List Nat :=
  match bs with
  | [] => (t, [])
  | b :: rest =>
      let s1 := getTradeCentreResponse t b
      let r := runTrace s1.1 rest
      (r.1, s1.2 :: r.2)

/-- Bit shifter and byte dispatcher state: the in_data, out_data and shift
fields of the trade context plus the static time variable of
input_clk_gameboy. -/
structure LinkState where
  trade : TradeState
  in_data : Nat
  out_data : Nat
  shift : Nat
  time : Nat

/-- Embedding of transferBit for one active clock edge: shift the sampled bit
into in_data; on the eighth bit dispatch the completed byte and latch the
response into out_data. -/
def transferBit (l : LinkState) (siBit : Bool) : LinkState :=
  let ind := (l.in_data * 2 + (if siBit then 1 else 0)) % 256
  let sh := (l.shift + 1) % 256
  if sh > 7 then
    let r := processByte l.trade ind
    { l with trade := r.1, out_data := r.2, shift := 0, in_data := 0 }
  else
    { l with in_data := ind, shift := sh }

/-- Embedding of input_clk_gameboy.  clkHigh tells whether the clock line
reads high (rising edge) or low (falling edge); now is the current cycle
counter value and thresholdTicks the desync threshold in cycles.  The elapsed
time is computed with 32-bit wraparound as in the C code. -/
def input_clk_gameboy (l : LinkState) (clkHigh siBit : Bool) (now thresholdTicks : Nat) :
    LinkState :=
  if clkHigh then
    let l1 :=
      if (now + 2 ^ 32 - l.time) % 2 ^ 32 > thresholdTicks then
        { l with in_data := 0, shift := 0 }
      else l
    let l2 := transferBit l1 siBit
    { l2 with time := now }
  else
    { l with out_data := (l.out_data * 2) % 256 }

/-- All-zero trade state in the initial phase, used to build concrete runs. -/
def initState : TradeState where
  trade_centre_state := TRADE_RESET
  counter := 0
  patch_pt_2 := false
  in_pokemon_num := 0
  trade_block := fun _ => 0
  input_block := fun _ => 0
  patch_list := fun _ => 0
  pokemon_table := fun _ => 0
  gameboy_status := GAMEBOY_CONN_FALSE
  curr_pokemon := 0
  plist_recreate_pending := false

/-- Concrete state sitting in the menu-mirroring mode. -/
def menuTestState : TradeState :=
  { initState with gameboy_status := GAMEBOY_CONN_TRUE }

/-- Concrete state at the start of the init phase. -/
def initPhaseState : TradeState :=
  { initState with trade_centre_state := TRADE_INIT }

/-- Concrete state at the start of the random-seed phase. -/
def randomPhaseState : TradeState :=
  { initState with trade_centre_state := TRADE_RANDOM }

/-- Concrete state at the start of the bulk-data phase. -/
def dataPhaseState : TradeState :=
  { initState with trade_centre_state := TRADE_DATA }

/-- Concrete state in the patch-header phase with five preamble markers seen. -/
def patchHeaderState : TradeState :=
  { initState with trade_centre_state := TRADE_PATCH_HEADER, counter := 5 }

/-- Concrete state in the patch-data phase. -/
def patchDataState : TradeState :=
  { initState with trade_centre_state := TRADE_PATCH_DATA }

/-- Concrete state in the pending phase whose incoming scratch block holds
distinguishable bytes. -/
def pendingPhaseState : TradeState :=
  { initState with
    trade_centre_state := TRADE_PENDING
    input_block := fun j => (j + 5) % 256 }

/-- Concrete byte sequence driving the machine from the initial phase through
the whole handshake up to the confirmation phase: one wake-up byte, ten
preamble markers, nineteen seed and trade-preamble bytes, a full trade block,
six patch preamble markers, the rest of the patch-data phase, then selection
of the first slot and the pre-confirmation blank. -/
def ce7List : List Nat :=
  [0] ++ List.replicate 10 SERIAL_PREAMBLE_BYTE ++ List.replicate 19 0 ++
    List.replicate 415 0 ++ List.replicate 6 SERIAL_PREAMBLE_BYTE ++
    List.replicate 195 0 ++ [0, 0x60, 0]

/-- Concrete link state mid-byte, with nonzero accumulators. -/
def linkTestState : LinkState :=
  { trade := initState, in_data := 3, out_data := 7, shift := 3, time := 0 }

theorem runState_nil (t : TradeState) : runState t [] = t := rfl

theorem runState_cons (t : TradeState) (b : Nat) (bs : List Nat) :
    runState t (b :: bs) = runState (getTradeCentreResponse t b).1 bs := rfl

theorem runState_append (t : TradeState) (l1 l2 : List Nat) :
    runState t (l1 ++ l2) = runState (runState t l1) l2 := by
  simp [runState]

theorem runTrace_nil (t : TradeState) : runTrace t [] = (t, []) := rfl

theorem runTrace_cons (t : TradeState) (b : Nat) (bs : List Nat) :
    runTrace t (b :: bs) =
      ((runTrace (getTradeCentreResponse t b).1 bs).1,
        (getTradeCentreResponse t b).2 :: (runTrace (getTradeCentreResponse t b).1 bs).2) := rfl

theorem step_reset (t : TradeState) (h : t.trade_centre_state = TRADE_RESET) (b : Nat) :
    getTradeCentreResponse t b =
      ({ t with counter := 0, patch_pt_2 := false, trade_centre_state := TRADE_INIT }, b) := by
  simp [getTradeCentreResponse, h]

theorem init_step_preamble (t : TradeState) (h : t.trade_centre_state = TRADE_INIT)
    (hc : t.counter + 1 ≠ SERIAL_RNS_LENGTH) :
    getTradeCentreResponse t SERIAL_PREAMBLE_BYTE =
      ({ t with counter := t.counter + 1, gameboy_status := GAMEBOY_WAITING },
        SERIAL_PREAMBLE_BYTE) := by
  simp [getTradeCentreResponse, h, hc]

theorem init_step_preamble_last (t : TradeState) (h : t.trade_centre_state = TRADE_INIT)
    (hc : t.counter + 1 = SERIAL_RNS_LENGTH) :
    getTradeCentreResponse t SERIAL_PREAMBLE_BYTE =
      ({ t with
          counter := 0
          trade_centre_state := TRADE_RANDOM
          gameboy_status := GAMEBOY_WAITING }, SERIAL_PREAMBLE_BYTE) := by
  simp [getTradeCentreResponse, h, hc]

theorem random_step_mid (t : TradeState) (h : t.trade_centre_state = TRADE_RANDOM) (b : Nat)
    (hc : t.counter + 1 ≠ SERIAL_RNS_LENGTH + SERIAL_TRADE_PREAMBLE_LENGTH) :
    getTradeCentreResponse t b = ({ t with counter := t.counter + 1 }, b) := by
  simp [getTradeCentreResponse, h, hc]

theorem random_step_last (t : TradeState) (h : t.trade_centre_state = TRADE_RANDOM) (b : Nat)
    (hc : t.counter + 1 = SERIAL_RNS_LENGTH + SERIAL_TRADE_PREAMBLE_LENGTH) :
    getTradeCentreResponse t b =
      ({ t with trade_centre_state := TRADE_DATA, counter := 0 }, b) := by
  simp [getTradeCentreResponse, h, hc]

theorem data_step_mid (t : TradeState) (h : t.trade_centre_state = TRADE_DATA) (b : Nat)
    (hc : t.counter + 1 ≠ tradeBlockSize) :
    getTradeCentreResponse t b =
      ({ t with input_block := updateFn t.input_block t.counter b, counter := t.counter + 1 },
        t.trade_block t.counter) := by
  simp [getTradeCentreResponse, h, hc]

theorem data_step_last (t : TradeState) (h : t.trade_centre_state = TRADE_DATA) (b : Nat)
    (hc : t.counter + 1 = tradeBlockSize) :
    getTradeCentreResponse t b =
      ({ t with
          input_block := updateFn t.input_block t.counter b
          trade_centre_state := TRADE_PATCH_HEADER
          counter := 0 },
        t.trade_block t.counter) := by
  simp [getTradeCentreResponse, h, hc]

theorem patch_header_step_preamble (t : TradeState)
    (h : t.trade_centre_state = TRADE_PATCH_HEADER)
    (hc : t.counter + 1 ≠ SERIAL_PREAMBLE_LENGTH) :
    getTradeCentreResponse t SERIAL_PREAMBLE_BYTE =
      ({ t with counter := t.counter + 1 }, SERIAL_PREAMBLE_BYTE) := by
  simp [getTradeCentreResponse, h, hc]

theorem patch_header_step_fall (t : TradeState)
    (h : t.trade_centre_state = TRADE_PATCH_HEADER)
    (hc : t.counter + 1 = SERIAL_PREAMBLE_LENGTH) :
    getTradeCentreResponse t SERIAL_PREAMBLE_BYTE =
      patchDataStep { t with counter := 0, trade_centre_state := TRADE_PATCH_DATA }
        SERIAL_PREAMBLE_BYTE SERIAL_PREAMBLE_BYTE := by
  simp [getTradeCentreResponse, h, hc]

theorem step_patch_data (t : TradeState) (h : t.trade_centre_state = TRADE_PATCH_DATA)
    (b : Nat) : getTradeCentreResponse t b = patchDataStep t b b := by
  simp [getTradeCentreResponse, h]

theorem patchData_fst (t : TradeState) (b s : Nat) :
    (patchDataStep t b s).1 =
      { t with
        counter := t.counter + 1
        trade_centre_state :=
          if t.counter + 1 = 196 then TRADE_SELECT else t.trade_centre_state
        patch_pt_2 := if b = SERIAL_PATCH_LIST_PART_TERMINATOR then true else t.patch_pt_2
        input_block :=
          if b = PKMN_BLANK ∨ b = SERIAL_PATCH_LIST_PART_TERMINATOR then t.input_block
          else updateFn t.input_block
            (partyOffset + (if t.patch_pt_2 then 0xFB + b else b - 1)) SERIAL_NO_DATA_BYTE } := by
  unfold patchDataStep
  split_ifs <;> simp_all [SERIAL_PATCH_LIST_PART_TERMINATOR, PKMN_BLANK]

theorem patchData_snd (t : TradeState) (b s : Nat) :
    (patchDataStep t b s).2 =
      if t.counter + 1 > 7 then t.patch_list (t.counter + 1 - 8) else s := by
  unfold patchDataStep
  split_ifs <;> simp_all <;> split <;> simp_all

theorem pending_leave (t : TradeState) (s : Nat) :
    pendingStep t PKMN_TABLE_LEAVE s =
      ({ t with trade_centre_state := TRADE_RESET, gameboy_status := GAMEBOY_READY },
        PKMN_TABLE_LEAVE) := by
  simp [pendingStep]

theorem pending_sel (t : TradeState) (b s : Nat)
    (hb : b &&& PKMN_SEL_NUM_MASK = PKMN_SEL_NUM_MASK) (hb2 : b ≠ PKMN_TABLE_LEAVE) :
    pendingStep t b s =
      ({ t with in_pokemon_num := b, gameboy_status := GAMEBOY_TRADE_PENDING },
        PKMN_SEL_NUM_ONE) := by
  simp [pendingStep, hb, hb2]

theorem pending_blank_sel (t : TradeState) (s : Nat) (hn : t.in_pokemon_num ≠ 0) :
    pendingStep t PKMN_BLANK s =
      ({ t with
          trade_centre_state := TRADE_CONFIRMATION
          in_pokemon_num := t.in_pokemon_num &&& 0x0F }, 0) := by
  simp [pendingStep, hn, PKMN_BLANK, PKMN_TABLE_LEAVE, PKMN_SEL_NUM_MASK]

theorem pending_blank_none (t : TradeState) (s : Nat) (hn : t.in_pokemon_num = 0) :
    pendingStep t PKMN_BLANK s = (t, s) := by
  simp [pendingStep, hn, PKMN_BLANK, PKMN_TABLE_LEAVE, PKMN_SEL_NUM_MASK]

theorem step_pending (t : TradeState) (h : t.trade_centre_state = TRADE_PENDING) (b : Nat) :
    getTradeCentreResponse t b = pendingStep t b b := by
  simp [getTradeCentreResponse, h]

theorem step_select_blank (t : TradeState) (h : t.trade_centre_state = TRADE_SELECT) :
    getTradeCentreResponse t PKMN_BLANK =
      pendingStep { t with in_pokemon_num := 0, trade_centre_state := TRADE_PENDING }
        PKMN_BLANK PKMN_BLANK := by
  simp [getTradeCentreResponse, h]

theorem step_select_other (t : TradeState) (h : t.trade_centre_state = TRADE_SELECT)
    (b : Nat) (hb : b ≠ PKMN_BLANK) :
    getTradeCentreResponse t b = ({ t with in_pokemon_num := 0 }, b) := by
  simp [getTradeCentreResponse, h, hb]

theorem confirm_reject (t : TradeState) (h : t.trade_centre_state = TRADE_CONFIRMATION) :
    getTradeCentreResponse t PKMN_TRADE_REJECT =
      ({ t with trade_centre_state := TRADE_SELECT, gameboy_status := GAMEBOY_WAITING },
        PKMN_TRADE_REJECT) := by
  simp [getTradeCentreResponse, h]

theorem confirm_accept (t : TradeState) (h : t.trade_centre_state = TRADE_CONFIRMATION) :
    getTradeCentreResponse t PKMN_TRADE_ACCEPT =
      ({ t with trade_centre_state := TRADE_DONE }, PKMN_TRADE_ACCEPT) := by
  simp [getTradeCentreResponse, h, PKMN_TRADE_ACCEPT, PKMN_TRADE_REJECT]

theorem done_step_other (t : TradeState) (h : t.trade_centre_state = TRADE_DONE)
    (b : Nat) (hb : b ≠ PKMN_BLANK) :
    getTradeCentreResponse t b = (t, b) := by
  simp [getTradeCentreResponse, h, hb]

theorem done_step_fields (t : TradeState) (h : t.trade_centre_state = TRADE_DONE) :
    (getTradeCentreResponse t PKMN_BLANK).1.input_block = t.input_block ∧
    (getTradeCentreResponse t PKMN_BLANK).1.trade_centre_state = TRADE_RESET ∧
    (getTradeCentreResponse t PKMN_BLANK).1.gameboy_status = GAMEBOY_TRADING ∧
    (getTradeCentreResponse t PKMN_BLANK).1.counter = t.counter ∧
    (getTradeCentreResponse t PKMN_BLANK).1.in_pokemon_num = t.in_pokemon_num ∧
    (getTradeCentreResponse t PKMN_BLANK).2 = PKMN_BLANK := by
  simp [getTradeCentreResponse, h]

theorem done_step_pm (t : TradeState) (h : t.trade_centre_state = TRADE_DONE) :
    (getTradeCentreResponse t PKMN_BLANK).1.trade_block partyMembersOffset
      = t.input_block (partyMembersOffset + t.in_pokemon_num) := by
  simp [getTradeCentreResponse, h, copyBytes, updateFn, partyMembersOffset, partyOffset,
    otNameOffset, nicknameOffset, NAME_SIZE, PKMN_STRUCT_SIZE]

theorem done_step_party (t : TradeState) (h : t.trade_centre_state = TRADE_DONE)
    (i : Nat) (hi : i < PKMN_STRUCT_SIZE) :
    (getTradeCentreResponse t PKMN_BLANK).1.trade_block (partyOffset + i)
      = t.input_block (partyOffset + t.in_pokemon_num * PKMN_STRUCT_SIZE + i) := by
  have hi44 : i < 44 := by simpa [PKMN_STRUCT_SIZE] using hi
  simp [getTradeCentreResponse, h, copyBytes, updateFn, partyMembersOffset, partyOffset,
    otNameOffset, nicknameOffset, NAME_SIZE, PKMN_STRUCT_SIZE]
  split_ifs <;> first | rfl | (exfalso; omega) | (congr 1; omega)

theorem done_step_nick (t : TradeState) (h : t.trade_centre_state = TRADE_DONE)
    (i : Nat) (hi : i < NAME_SIZE) :
    (getTradeCentreResponse t PKMN_BLANK).1.trade_block (nicknameOffset + i)
      = t.input_block (nicknameOffset + t.in_pokemon_num * NAME_SIZE + i) := by
  have hi11 : i < 11 := by simpa [NAME_SIZE] using hi
  simp [getTradeCentreResponse, h, copyBytes, updateFn, partyMembersOffset, partyOffset,
    otNameOffset, nicknameOffset, NAME_SIZE, PKMN_STRUCT_SIZE]
  split_ifs <;> first | rfl | (exfalso; omega) | (congr 1; omega)

theorem done_step_ot (t : TradeState) (h : t.trade_centre_state = TRADE_DONE)
    (i : Nat) (hi : i < NAME_SIZE) :
    (getTradeCentreResponse t PKMN_BLANK).1.trade_block (otNameOffset + i)
      = t.input_block (otNameOffset + t.in_pokemon_num * NAME_SIZE + i) := by
  have hi11 : i < 11 := by simpa [NAME_SIZE] using hi
  simp [getTradeCentreResponse, h, copyBytes, updateFn, partyMembersOffset, partyOffset,
    otNameOffset, nicknameOffset, NAME_SIZE, PKMN_STRUCT_SIZE]
  split_ifs <;> first | rfl | (exfalso; omega) | (congr 1; omega)

theorem done_step_frame (t : TradeState) (h : t.trade_centre_state = TRADE_DONE)
    (j : Nat) (h1 : j ≠ partyMembersOffset)
    (h2 : ¬(partyOffset ≤ j ∧ j < partyOffset + PKMN_STRUCT_SIZE))
    (h3 : ¬(nicknameOffset ≤ j ∧ j < nicknameOffset + NAME_SIZE))
    (h4 : ¬(otNameOffset ≤ j ∧ j < otNameOffset + NAME_SIZE)) :
    (getTradeCentreResponse t PKMN_BLANK).1.trade_block j = t.trade_block j := by
  simp only [partyMembersOffset, partyOffset, otNameOffset, nicknameOffset, NAME_SIZE,
    PKMN_STRUCT_SIZE] at h1 h2 h3 h4
  simp [getTradeCentreResponse, h, copyBytes, updateFn, partyMembersOffset, partyOffset,
    otNameOffset, nicknameOffset, NAME_SIZE, PKMN_STRUCT_SIZE]
  split_ifs <;> first | rfl | (exfalso; omega) | (congr 1; omega)

theorem init_run_partial (j : Nat) :
    ∀ t : TradeState, t.trade_centre_state = TRADE_INIT → t.counter + j < 10 →
      (runState t (List.replicate j SERIAL_PREAMBLE_BYTE)).trade_centre_state = TRADE_INIT ∧
      (runState t (List.replicate j SERIAL_PREAMBLE_BYTE)).counter = t.counter + j := by
  induction j with
  | zero =>
    intro t h _
    simp [runState_nil, h]
  | succ n ih =>
    intro t h hc
    rw [List.replicate_succ, runState_cons,
      init_step_preamble t h (by show t.counter + 1 ≠ 10; omega)]
    obtain ⟨h1, h2⟩ :=
      ih { t with counter := t.counter + 1, gameboy_status := GAMEBOY_WAITING } h
        (by show t.counter + 1 + n < 10; omega)
    exact ⟨h1, by rw [h2]; show t.counter + 1 + n = t.counter + (n + 1); omega⟩

theorem init_run_full (j : Nat) :
    ∀ t : TradeState, t.trade_centre_state = TRADE_INIT → t.counter + j = 10 → 0 < j →
      (runState t (List.replicate j SERIAL_PREAMBLE_BYTE)).trade_centre_state = TRADE_RANDOM ∧
      (runState t (List.replicate j SERIAL_PREAMBLE_BYTE)).counter = 0 := by
  induction j with
  | zero =>
    intro t _ _ hp
    exact absurd hp (by omega)
  | succ n ih =>
    intro t h hc _
    rcases Nat.eq_zero_or_pos n with hn | hn
    · subst hn
      rw [List.replicate_succ, runState_cons,
        init_step_preamble_last t h (by show t.counter + 1 = 10; omega)]
      simp [runState_nil]
    · rw [List.replicate_succ, runState_cons,
        init_step_preamble t h (by show t.counter + 1 ≠ 10; omega)]
      exact ih { t with counter := t.counter + 1, gameboy_status := GAMEBOY_WAITING } h
        (by show t.counter + 1 + n = 10; omega) hn

theorem random_run_partial (bs : List Nat) :
    ∀ t : TradeState, t.trade_centre_state = TRADE_RANDOM → t.counter + bs.length < 19 →
      (runState t bs).trade_centre_state = TRADE_RANDOM ∧
      (runState t bs).counter = t.counter + bs.length := by
  induction bs with
  | nil =>
    intro t h _
    simp [runState_nil, h]
  | cons b rest ih =>
    intro t h hc
    simp only [List.length_cons] at hc
    rw [runState_cons, random_step_mid t h b (by show t.counter + 1 ≠ 19; omega)]
    obtain ⟨h1, h2⟩ := ih { t with counter := t.counter + 1 } h
      (by show t.counter + 1 + rest.length < 19; omega)
    refine ⟨h1, ?_⟩
    rw [h2]
    show t.counter + 1 + rest.length = t.counter + (rest.length + 1)
    omega

theorem random_run_full (bs : List Nat) :
    ∀ t : TradeState, t.trade_centre_state = TRADE_RANDOM → t.counter + bs.length = 19 →
      bs ≠ [] →
      (runState t bs).trade_centre_state = TRADE_DATA ∧
      (runState t bs).counter = 0 := by
  induction bs with
  | nil =>
    intro t _ _ hne
    exact absurd rfl hne
  | cons b rest ih =>
    intro t h hc _
    simp only [List.length_cons] at hc
    rcases Nat.eq_zero_or_pos rest.length with hn | hn
    · have hrest : rest = [] := List.length_eq_zero.mp hn
      subst hrest
      rw [runState_cons, random_step_last t h b (by show t.counter + 1 = 19; omega)]
      simp [runState_nil]
    · rw [runState_cons, random_step_mid t h b (by show t.counter + 1 ≠ 19; omega)]
      exact ih { t with counter := t.counter + 1 } h
        (by show t.counter + 1 + rest.length = 19; omega)
        (by intro hnil; rw [hnil] at hn; simp at hn)

/-- C4: starting from the init phase with its counter at zero, consuming ten
preamble markers (0xFD) followed by nineteen further bytes of arbitrary value
leaves the machine in the bulk-payload-exchange phase with its counter reset
to zero, and the phase changes happen at exactly those byte counts: after any
j < 10 markers the machine is still in the init phase with counter j, after
exactly the tenth marker it is in the random-seed phase with counter zero,
after any j < 19 further bytes it is still in the random-seed phase with
counter j, and exactly after the nineteenth it enters the bulk-data phase. -/
theorem C4_handshake_reaches_bulk_exchange (t : TradeState)
    (h : t.trade_centre_state = TRADE_INIT) (hc : t.counter = 0)
    (rest : List Nat) (hr : rest.length = 19) :
    ((runState t (List.replicate 10 SERIAL_PREAMBLE_BYTE)).trade_centre_state = TRADE_RANDOM ∧
      (runState t (List.replicate 10 SERIAL_PREAMBLE_BYTE)).counter = 0) ∧
    (∀ j, j < 10 →
      (runState t (List.replicate j SERIAL_PREAMBLE_BYTE)).trade_centre_state = TRADE_INIT ∧
      (runState t (List.replicate j SERIAL_PREAMBLE_BYTE)).counter = j) ∧
    (∀ j, j < 19 →
      (runState t (List.replicate 10 SERIAL_PREAMBLE_BYTE ++ rest.take j)).trade_centre_state
          = TRADE_RANDOM ∧
      (runState t (List.replicate 10 SERIAL_PREAMBLE_BYTE ++ rest.take j)).counter = j) ∧
    ((runState t (List.replicate 10 SERIAL_PREAMBLE_BYTE ++ rest)).trade_centre_state
        = TRADE_DATA ∧
      (runState t (List.replicate 10 SERIAL_PREAMBLE_BYTE ++ rest)).counter = 0) := by
  have hfull := init_run_full 10 t h (by omega) (by omega)
  refine ⟨hfull, ?_, ?_, ?_⟩
  · intro j hj
    obtain ⟨h1, h2⟩ := init_run_partial j t h (by omega)
    refine ⟨h1, ?_⟩
    rw [h2, hc]
    omega
  · intro j hj
    rw [runState_append]
    have htk : (rest.take j).length = j := by
      rw [List.length_take, hr]
      omega
    obtain ⟨h1, h2⟩ := random_run_partial (rest.take j) _ hfull.1
      (by rw [hfull.2, htk]; omega)
    refine ⟨h1, ?_⟩
    rw [h2, hfull.2, htk]
    omega
  · rw [runState_append]
    exact random_run_full rest _ hfull.1 (by rw [hfull.2, hr])
      (by intro hnil; rw [hnil] at hr; simp at hr)

/-- Witness for C4 at a concrete init-phase state and a concrete all-zero
nineteen-byte tail. -/
theorem C4_witness :
    (runState initPhaseState
        (List.replicate 10 SERIAL_PREAMBLE_BYTE ++ List.replicate 19 0)).trade_centre_state
      = TRADE_DATA ∧
    (runState initPhaseState
        (List.replicate 10 SERIAL_PREAMBLE_BYTE ++ List.replicate 19 0)).counter = 0 :=
  (C4_handshake_reaches_bulk_exchange initPhaseState rfl rfl (List.replicate 19 0)
    (by simp)).2.2.2

theorem data_run_aux (bs : List Nat) :
    ∀ t : TradeState, t.trade_centre_state = TRADE_DATA →
      t.counter + bs.length ≤ tradeBlockSize →
      ((t.counter + bs.length < tradeBlockSize →
          (runTrace t bs).1.trade_centre_state = TRADE_DATA ∧
          (runTrace t bs).1.counter = t.counter + bs.length) ∧
        (bs ≠ [] → t.counter + bs.length = tradeBlockSize →
          (runTrace t bs).1.trade_centre_state = TRADE_PATCH_HEADER ∧
          (runTrace t bs).1.counter = 0) ∧
        (∀ i, i < bs.length →
          (runTrace t bs).1.input_block (t.counter + i) = bs.getD i 0) ∧
        (∀ j, j < t.counter ∨ t.counter + bs.length ≤ j →
          (runTrace t bs).1.input_block j = t.input_block j) ∧
        (runTrace t bs).1.trade_block = t.trade_block ∧
        (runTrace t bs).2.length = bs.length ∧
        (∀ i, i < bs.length →
          (runTrace t bs).2.getD i 0 = t.trade_block (t.counter + i))) := by
  induction bs with
  | nil =>
    intro t h _
    simp [runTrace_nil, h]
  | cons b rest ih =>
    intro t h hle
    simp only [List.length_cons] at hle
    by_cases hlast : t.counter + 1 = tradeBlockSize
    · have hrest : rest = [] := by
        cases rest with
        | nil => rfl
        | cons x xs =>
          exfalso
          simp only [List.length_cons] at hle
          omega
      subst hrest
      rw [runTrace_cons, data_step_last t h b hlast]
      simp only [List.length_cons, List.length_nil]
      refine ⟨?_, ?_, ?_, ?_, ?_, ?_, ?_⟩
      · intro hlt
        exfalso
        omega
      · intro _ _
        simp [runTrace_nil]
      · intro i hi
        interval_cases i
        simp [runTrace_nil, updateFn]
      · intro j hj
        have hjne : j ≠ t.counter := by omega
        simp [runTrace_nil, updateFn, hjne]
      · simp [runTrace_nil]
      · simp [runTrace_nil]
      · intro i hi
        interval_cases i
        simp [runTrace_nil]
    · rw [runTrace_cons, data_step_mid t h b hlast]
      dsimp only
      obtain ⟨ih1, ih2, ih3, ih4, ih5, ih6, ih7⟩ :=
        ih { t with
              input_block := updateFn t.input_block t.counter b
              counter := t.counter + 1 } h
          (by show t.counter + 1 + rest.length ≤ tradeBlockSize; omega)
      dsimp only at ih1 ih2 ih3 ih4 ih5 ih6 ih7
      simp only [List.length_cons]
      refine ⟨?_, ?_, ?_, ?_, ?_, ?_, ?_⟩
      · intro hlt
        obtain ⟨c1, c2⟩ := ih1 (by omega)
        refine ⟨c1, ?_⟩
        rw [c2]
        omega
      · intro _ hEq
        rcases Nat.eq_zero_or_pos rest.length with hn | hn
        · exfalso
          omega
        · exact ih2 (List.length_pos.mp hn) (by omega)
      · intro i hi
        cases i with
        | zero =>
          have h4 := ih4 t.counter (Or.inl (by omega))
          simpa [updateFn] using h4
        | succ k =>
          have hk : k < rest.length := by omega
          have h3 := ih3 k hk
          have hidx : t.counter + 1 + k = t.counter + (k + 1) := by omega
          rw [hidx] at h3
          simpa using h3
      · intro j hj
        have h4 := ih4 j (by omega)
        have hjne : j ≠ t.counter := by omega
        rw [h4]
        simp [updateFn, hjne]
      · exact ih5
      · simp [ih6]
      · intro i hi
        cases i with
        | zero =>
          simp
        | succ k =>
          have hk : k < rest.length := by omega
          have h7 := ih7 k hk
          have hidx : t.counter + 1 + k = t.counter + (k + 1) := by omega
          rw [hidx] at h7
          simpa using h7

/-- C5: starting the bulk-exchange phase with counter zero and feeding it any
sequence of exactly tradeBlockSize bytes transitions the machine to the
patch-header phase with counter zero — and to no other phase after any
shorter prefix — while the i-th inbound byte is stored into the Incoming
Scratch Block at position i, positions beyond the block are untouched, and
the i-th emitted byte is the local Trade Block's byte at position i. -/
theorem C5_data_exchange (t : TradeState) (h : t.trade_centre_state = TRADE_DATA)
    (hc : t.counter = 0) (bs : List Nat) (hlen : bs.length = tradeBlockSize) :
    (runTrace t bs).1.trade_centre_state = TRADE_PATCH_HEADER ∧
    (runTrace t bs).1.counter = 0 ∧
    (∀ i, i < tradeBlockSize → (runTrace t bs).1.input_block i = bs.getD i 0) ∧
    (∀ j, tradeBlockSize ≤ j → (runTrace t bs).1.input_block j = t.input_block j) ∧
    (runTrace t bs).2.length = tradeBlockSize ∧
    (∀ i, i < tradeBlockSize → (runTrace t bs).2.getD i 0 = t.trade_block i) ∧
    (∀ j, j < tradeBlockSize →
      (runTrace t (bs.take j)).1.trade_centre_state = TRADE_DATA ∧
      (runTrace t (bs.take j)).1.counter = j) := by
  have hsz : tradeBlockSize = 415 := rfl
  have hne : bs ≠ [] := by
    intro hnil
    rw [hnil] at hlen
    simp at hlen
    omega
  obtain ⟨a1, a2, a3, a4, a5, a6, a7⟩ := data_run_aux bs t h (by omega)
  obtain ⟨b1, b2⟩ := a2 hne (by omega)
  refine ⟨b1, b2, ?_, ?_, ?_, ?_, ?_⟩
  · intro i hi
    have h3 := a3 i (by omega)
    rwa [hc, Nat.zero_add] at h3
  · intro j hj
    exact a4 j (by omega)
  · rw [a6, hlen]
  · intro i hi
    have h7 := a7 i (by omega)
    rwa [hc, Nat.zero_add] at h7
  · intro j hj
    have htk : (bs.take j).length = j := by
      rw [List.length_take, hlen]
      omega
    obtain ⟨p1, p2, p3, p4, p5, p6, p7⟩ :=
      data_run_aux (bs.take j) t h (by omega)
    obtain ⟨q1, q2⟩ := p1 (by omega)
    refine ⟨q1, ?_⟩
    rw [q2, hc, htk]
    omega

/-- Witness for C5 at a concrete data-phase state and a concrete byte list. -/
theorem C5_witness :
    (runTrace dataPhaseState (List.replicate 415 7)).1.trade_centre_state
        = TRADE_PATCH_HEADER ∧
    (runTrace dataPhaseState (List.replicate 415 7)).1.counter = 0 :=
  ⟨(C5_data_exchange dataPhaseState rfl rfl (List.replicate 415 7) rfl).1,
    (C5_data_exchange dataPhaseState rfl rfl (List.replicate 415 7) rfl).2.1⟩

/-- C1: from any state in the pending phase, a selection byte for slot k
(k < 6), then a blank byte, then the explicit accept byte 0x62, then a blank
byte, leaves the local Trade Block's slot 0 holding exactly the party species
byte, creature record, nickname and original-trainer name that the Incoming
Scratch Block held in slot k before the sequence; every other byte of the
local Trade Block is untouched, the scratch block itself is untouched, and
the machine returns to the initial phase. -/
theorem C1_pending_accept_copies_slot (t : TradeState)
    (h : t.trade_centre_state = TRADE_PENDING) (k : Nat) (hk : k < 6) :
    (runState t [0x60 + k, PKMN_BLANK, PKMN_TRADE_ACCEPT, PKMN_BLANK]).trade_block
        partyMembersOffset = t.input_block (partyMembersOffset + k) ∧
    (∀ i, i < PKMN_STRUCT_SIZE →
      (runState t [0x60 + k, PKMN_BLANK, PKMN_TRADE_ACCEPT, PKMN_BLANK]).trade_block
          (partyOffset + i) = t.input_block (partyOffset + k * PKMN_STRUCT_SIZE + i)) ∧
    (∀ i, i < NAME_SIZE →
      (runState t [0x60 + k, PKMN_BLANK, PKMN_TRADE_ACCEPT, PKMN_BLANK]).trade_block
          (nicknameOffset + i) = t.input_block (nicknameOffset + k * NAME_SIZE + i)) ∧
    (∀ i, i < NAME_SIZE →
      (runState t [0x60 + k, PKMN_BLANK, PKMN_TRADE_ACCEPT, PKMN_BLANK]).trade_block
          (otNameOffset + i) = t.input_block (otNameOffset + k * NAME_SIZE + i)) ∧
    (∀ j, j ≠ partyMembersOffset →
      ¬(partyOffset ≤ j ∧ j < partyOffset + PKMN_STRUCT_SIZE) →
      ¬(nicknameOffset ≤ j ∧ j < nicknameOffset + NAME_SIZE) →
      ¬(otNameOffset ≤ j ∧ j < otNameOffset + NAME_SIZE) →
      (runState t [0x60 + k, PKMN_BLANK, PKMN_TRADE_ACCEPT, PKMN_BLANK]).trade_block j
        = t.trade_block j) ∧
    (runState t [0x60 + k, PKMN_BLANK, PKMN_TRADE_ACCEPT, PKMN_BLANK]).input_block
      = t.input_block ∧
    (runState t [0x60 + k, PKMN_BLANK, PKMN_TRADE_ACCEPT, PKMN_BLANK]).trade_centre_state
      = TRADE_RESET := by
  have hmask : (0x60 + k) &&& PKMN_SEL_NUM_MASK = PKMN_SEL_NUM_MASK := by
    interval_cases k <;> decide
  have hleave : (0x60 + k) ≠ PKMN_TABLE_LEAVE := by
    show 0x60 + k ≠ 0x6f
    omega
  have hnib : (0x60 + k) &&& 0x0F = k := by
    interval_cases k <;> decide
  have s1def : (getTradeCentreResponse t (0x60 + k)).1
      = { t with in_pokemon_num := 0x60 + k, gameboy_status := GAMEBOY_TRADE_PENDING } := by
    rw [step_pending t h, pending_sel t _ _ hmask hleave]
  have s2def :
      (getTradeCentreResponse
          { t with in_pokemon_num := 0x60 + k, gameboy_status := GAMEBOY_TRADE_PENDING }
          PKMN_BLANK).1
        = { t with
            in_pokemon_num := k
            gameboy_status := GAMEBOY_TRADE_PENDING
            trade_centre_state := TRADE_CONFIRMATION } := by
    rw [step_pending
        { t with in_pokemon_num := 0x60 + k, gameboy_status := GAMEBOY_TRADE_PENDING } h,
      pending_blank_sel
        { t with in_pokemon_num := 0x60 + k, gameboy_status := GAMEBOY_TRADE_PENDING } _
        (show 0x60 + k ≠ 0 by omega)]
    simp [hnib]
  have s3def :
      (getTradeCentreResponse
          { t with
            in_pokemon_num := k
            gameboy_status := GAMEBOY_TRADE_PENDING
            trade_centre_state := TRADE_CONFIRMATION }
          PKMN_TRADE_ACCEPT).1
        = { t with
            in_pokemon_num := k
            gameboy_status := GAMEBOY_TRADE_PENDING
            trade_centre_state := TRADE_DONE } := by
    rw [confirm_accept
        { t with
          in_pokemon_num := k
          gameboy_status := GAMEBOY_TRADE_PENDING
          trade_centre_state := TRADE_CONFIRMATION } rfl]
  have hrun : runState t [0x60 + k, PKMN_BLANK, PKMN_TRADE_ACCEPT, PKMN_BLANK]
      = (getTradeCentreResponse
          { t with
            in_pokemon_num := k
            gameboy_status := GAMEBOY_TRADE_PENDING
            trade_centre_state := TRADE_DONE }
          PKMN_BLANK).1 := by
    rw [runState_cons, s1def, runState_cons, s2def, runState_cons, s3def,
      runState_cons, runState_nil]
  rw [hrun]
  exact ⟨done_step_pm _ rfl,
    fun i hi => done_step_party _ rfl i hi,
    fun i hi => done_step_nick _ rfl i hi,
    fun i hi => done_step_ot _ rfl i hi,
    fun j h1 h2 h3 h4 => done_step_frame _ rfl j h1 h2 h3 h4,
    (done_step_fields _ rfl).1,
    (done_step_fields _ rfl).2.1⟩

/-- Witness for C1 at a concrete pending-phase state and slot 2. -/
theorem C1_witness :
    (runState pendingPhaseState [0x60 + 2, PKMN_BLANK, PKMN_TRADE_ACCEPT, PKMN_BLANK]).trade_block
        partyMembersOffset = pendingPhaseState.input_block (partyMembersOffset + 2) ∧
    (runState pendingPhaseState
        [0x60 + 2, PKMN_BLANK, PKMN_TRADE_ACCEPT, PKMN_BLANK]).trade_centre_state
      = TRADE_RESET :=
  ⟨(C1_pending_accept_copies_slot pendingPhaseState rfl 2 (by omega)).1,
    (C1_pending_accept_copies_slot pendingPhaseState rfl 2 (by omega)).2.2.2.2.2.2⟩

/-- C2: in the patch-data phase, a zero marker leaves the Incoming Scratch
Block and the part-2 flag unchanged; the terminator marker 0xFF sets the
part-2 flag, which then stays true for every further patch-data byte, without
touching the scratch block; and any other nonzero marker m overwrites exactly
one byte of the scratch block's party region with the no-data filler 0xFE, at
party position m - 1 before the terminator has been seen and at party
position 0xFB + m after it. -/
theorem C2_patch_data_markers (t : TradeState)
    (h : t.trade_centre_state = TRADE_PATCH_DATA) (m : Nat) (hm : m < 256) :
    (m = 0 →
      (getTradeCentreResponse t m).1.input_block = t.input_block ∧
      (getTradeCentreResponse t m).1.patch_pt_2 = t.patch_pt_2) ∧
    (m = 0xFF →
      (getTradeCentreResponse t m).1.patch_pt_2 = true ∧
      (getTradeCentreResponse t m).1.input_block = t.input_block) ∧
    (∀ t2 : TradeState, t2.trade_centre_state = TRADE_PATCH_DATA → t2.patch_pt_2 = true →
      ∀ b : Nat, (getTradeCentreResponse t2 b).1.patch_pt_2 = true) ∧
    (m ≠ 0 → m ≠ 0xFF →
      (getTradeCentreResponse t m).1.input_block =
        updateFn t.input_block
          (partyOffset + (if t.patch_pt_2 then 0xFB + m else m - 1))
          SERIAL_NO_DATA_BYTE) := by
  refine ⟨?_, ?_, ?_, ?_⟩
  · intro hm0
    subst hm0
    rw [step_patch_data t h, patchData_fst]
    constructor <;> simp [PKMN_BLANK, SERIAL_PATCH_LIST_PART_TERMINATOR]
  · intro hm0
    subst hm0
    rw [step_patch_data t h, patchData_fst]
    constructor <;> simp [PKMN_BLANK, SERIAL_PATCH_LIST_PART_TERMINATOR]
  · intro t2 h2 hp2 b
    rw [step_patch_data t2 h2, patchData_fst]
    simp [hp2]
  · intro h0 hff
    rw [step_patch_data t h, patchData_fst]
    simp only [PKMN_BLANK, SERIAL_PATCH_LIST_PART_TERMINATOR] at h0 hff ⊢
    simp [h0, hff]

/-- Witness for C2 at a concrete patch-data state and marker 1. -/
theorem C2_witness :
    (getTradeCentreResponse patchDataState 1).1.input_block =
      updateFn patchDataState.input_block (partyOffset + 0) SERIAL_NO_DATA_BYTE :=
  (C2_patch_data_markers patchDataState rfl 1 (by omega)).2.2.2 (by omega) (by omega)

/-- C6: in the patch-header phase, the byte that brings the preamble-marker
count to six is processed under the patch-data rules in the same step: the
step equals the patch-data handling of that same byte from a zero counter,
the machine is left in the patch-data phase, and the patch-data counter
counts that byte as its first. -/
theorem C6_patch_header_fallthrough (t : TradeState)
    (h : t.trade_centre_state = TRADE_PATCH_HEADER) (hc : t.counter = 5) :
    getTradeCentreResponse t SERIAL_PREAMBLE_BYTE =
      getTradeCentreResponse
        { t with counter := 0, trade_centre_state := TRADE_PATCH_DATA }
        SERIAL_PREAMBLE_BYTE ∧
    (getTradeCentreResponse t SERIAL_PREAMBLE_BYTE).1.trade_centre_state
        = TRADE_PATCH_DATA ∧
    (getTradeCentreResponse t SERIAL_PREAMBLE_BYTE).1.counter = 1 := by
  have h6 : t.counter + 1 = SERIAL_PREAMBLE_LENGTH := by
    show t.counter + 1 = 6
    omega
  refine ⟨?_, ?_, ?_⟩
  · rw [patch_header_step_fall t h h6, step_patch_data _ rfl]
  · rw [patch_header_step_fall t h h6, patchData_fst]
    simp
  · rw [patch_header_step_fall t h h6, patchData_fst]

/-- Witness for C6 at a concrete patch-header state with five markers seen. -/
theorem C6_witness :
    (getTradeCentreResponse patchHeaderState SERIAL_PREAMBLE_BYTE).1.trade_centre_state
        = TRADE_PATCH_DATA ∧
    (getTradeCentreResponse patchHeaderState SERIAL_PREAMBLE_BYTE).1.counter = 1 :=
  ⟨(C6_patch_header_fallthrough patchHeaderState rfl rfl).2.1,
    (C6_patch_header_fallthrough patchHeaderState rfl rfl).2.2⟩

/-- C3 counterexample: in the menu-mirroring state, processing the
trade-centre selection byte 0xD4 produces the output byte 0x00, not the
echoed 0xD4 the claim asserts, while the status does become ready. -/
theorem C3_counterexample :
    (processByte menuTestState PKMN_TRADE_CENTRE).2 = PKMN_BLANK ∧
    (processByte menuTestState PKMN_TRADE_CENTRE).2 ≠ PKMN_TRADE_CENTRE ∧
    (processByte menuTestState PKMN_TRADE_CENTRE).1.gameboy_status = GAMEBOY_READY := by
  decide

/-- C3 amended: in the menu-mirroring state, processing 0xD4 (trade-centre
selected) sets the status projection to ready and produces the blank byte
0x00; only bytes that match none of the explicitly handled markers are echoed
back. -/
theorem C3_menu_trade_centre (t : TradeState) (h : t.gameboy_status = GAMEBOY_CONN_TRUE) :
    (processByte t PKMN_TRADE_CENTRE).2 = PKMN_BLANK ∧
    (processByte t PKMN_TRADE_CENTRE).1.gameboy_status = GAMEBOY_READY ∧
    (∀ b : Nat, b ≠ PKMN_CONNECTED → b ≠ PKMN_TRADE_CENTRE → b ≠ PKMN_COLOSSEUM →
      b ≠ PKMN_BREAK_LINK → b ≠ PKMN_MASTER → (processByte t b).2 = b) := by
  refine ⟨?_, ?_, ?_⟩
  · simp [processByte, h, getMenuResponse, PKMN_TRADE_CENTRE, PKMN_CONNECTED,
      ITEM_1_SELECTED]
  · simp [processByte, h, getMenuResponse, PKMN_TRADE_CENTRE, PKMN_CONNECTED,
      ITEM_1_SELECTED]
  · intro b h1 h2 h3 h4 h5
    simp only [PKMN_CONNECTED, PKMN_TRADE_CENTRE, PKMN_COLOSSEUM, PKMN_BREAK_LINK,
      PKMN_MASTER, ITEM_1_SELECTED, ITEM_2_SELECTED, ITEM_3_SELECTED] at h1 h2 h3 h4 h5
    simp [processByte, h, getMenuResponse, PKMN_CONNECTED, PKMN_TRADE_CENTRE,
      PKMN_COLOSSEUM, PKMN_BREAK_LINK, PKMN_MASTER, ITEM_1_SELECTED, ITEM_2_SELECTED,
      ITEM_3_SELECTED, h1, h2, h3, h4, h5]

/-- Witness for the amended C3 at a concrete connected state. -/
theorem C3_witness :
    (processByte menuTestState PKMN_TRADE_CENTRE).2 = PKMN_BLANK ∧
    (processByte menuTestState PKMN_TRADE_CENTRE).1.gameboy_status = GAMEBOY_READY :=
  ⟨(C3_menu_trade_centre menuTestState rfl).1,
    (C3_menu_trade_centre menuTestState rfl).2.1⟩

/-- C7 counterexample: the concrete handshake run ce7List reachably puts the
machine in the confirmation phase with counter 196; the explicit reject byte
then moves it backward to the selection phase — neither the same phase, nor a
forward step, nor the initial phase — and the counter is not reset to zero by
that transition. -/
theorem C7_counterexample :
    (runState initState ce7List).trade_centre_state = TRADE_CONFIRMATION ∧
    (getTradeCentreResponse (runState initState ce7List)
        PKMN_TRADE_REJECT).1.trade_centre_state = TRADE_SELECT ∧
    phaseIdx ((getTradeCentreResponse (runState initState ce7List)
        PKMN_TRADE_REJECT).1.trade_centre_state)
      < phaseIdx ((runState initState ce7List).trade_centre_state) ∧
    (getTradeCentreResponse (runState initState ce7List)
        PKMN_TRADE_REJECT).1.trade_centre_state ≠ TRADE_RESET ∧
    (getTradeCentreResponse (runState initState ce7List) PKMN_TRADE_REJECT).1.counter
      = 196 := by
  decide

/-- C7 amended: every step of the session state machine either keeps the
phase, advances it to its immediate successor in the declared order, resets
to the initial phase, or — the single backward transition — moves from
confirmation to selection on the explicit reject byte.  The counter is zero
after any transition into the init, random, data or patch-header phases, and
is one after the patch-header fallthrough into patch data (the triggering
byte is counted by the new phase); transitions into the selection and later
phases and into the reset phase leave the counter untouched, to be cleared by
the reset phase before reuse. -/
theorem C7_phase_order (t : TradeState) (b : Nat) :
    ((getTradeCentreResponse t b).1.trade_centre_state = t.trade_centre_state ∨
      (getTradeCentreResponse t b).1.trade_centre_state = nextPhase t.trade_centre_state ∨
      (getTradeCentreResponse t b).1.trade_centre_state = TRADE_RESET ∨
      (t.trade_centre_state = TRADE_CONFIRMATION ∧
        (getTradeCentreResponse t b).1.trade_centre_state = TRADE_SELECT)) ∧
    ((getTradeCentreResponse t b).1.trade_centre_state ≠ t.trade_centre_state →
      ((getTradeCentreResponse t b).1.trade_centre_state = TRADE_INIT ∨
        (getTradeCentreResponse t b).1.trade_centre_state = TRADE_RANDOM ∨
        (getTradeCentreResponse t b).1.trade_centre_state = TRADE_DATA ∨
        (getTradeCentreResponse t b).1.trade_centre_state = TRADE_PATCH_HEADER →
        (getTradeCentreResponse t b).1.counter = 0)) ∧
    ((getTradeCentreResponse t b).1.trade_centre_state ≠ t.trade_centre_state →
      (getTradeCentreResponse t b).1.trade_centre_state = TRADE_PATCH_DATA →
      (getTradeCentreResponse t b).1.counter = 1) := by
  cases ht : t.trade_centre_state
  case TRADE_RESET =>
    simp [getTradeCentreResponse, ht, nextPhase]
  case TRADE_INIT =>
    simp only [getTradeCentreResponse, ht]
    split_ifs <;> simp_all [nextPhase]
  case TRADE_RANDOM =>
    simp only [getTradeCentreResponse, ht]
    split_ifs <;> simp_all [nextPhase]
  case TRADE_DATA =>
    simp only [getTradeCentreResponse, ht]
    split_ifs <;> simp_all [nextPhase]
  case TRADE_PATCH_HEADER =>
    simp only [getTradeCentreResponse, ht]
    split_ifs <;> simp_all [patchData_fst, nextPhase]
  case TRADE_PATCH_DATA =>
    simp only [getTradeCentreResponse, ht]
    simp only [patchData_fst]
    split_ifs <;> simp_all [nextPhase]
  case TRADE_SELECT =>
    simp only [getTradeCentreResponse, ht]
    split_ifs <;>
      simp_all [pendingStep, nextPhase, PKMN_BLANK, PKMN_TABLE_LEAVE, PKMN_SEL_NUM_MASK]
  case TRADE_PENDING =>
    simp only [getTradeCentreResponse, ht, pendingStep]
    split_ifs <;> simp_all [nextPhase]
  case TRADE_CONFIRMATION =>
    simp only [getTradeCentreResponse, ht]
    split_ifs <;> simp_all [nextPhase]
  case TRADE_DONE =>
    simp only [getTradeCentreResponse, ht]
    split_ifs <;> simp_all [nextPhase]

/-- Witness instantiating the amended C7 at a concrete state and byte. -/
theorem C7_witness :
    (getTradeCentreResponse initState 0).1.trade_centre_state
        = initState.trade_centre_state ∨
      (getTradeCentreResponse initState 0).1.trade_centre_state
        = nextPhase initState.trade_centre_state ∨
      (getTradeCentreResponse initState 0).1.trade_centre_state = TRADE_RESET ∨
      (initState.trade_centre_state = TRADE_CONFIRMATION ∧
        (getTradeCentreResponse initState 0).1.trade_centre_state = TRADE_SELECT) :=
  (C7_phase_order initState 0).1

/-- C8 counterexample: after the reachable prefix of one wake-up byte and ten
preamble markers the machine is in the random-seed phase; a leave-table byte
there does not reset the session: the machine stays in the random-seed phase
and its counter advances to one. -/
theorem C8_counterexample :
    (runState initState (0 :: List.replicate 10 SERIAL_PREAMBLE_BYTE)).trade_centre_state
        = TRADE_RANDOM ∧
    (getTradeCentreResponse
        (runState initState (0 :: List.replicate 10 SERIAL_PREAMBLE_BYTE))
        PKMN_TABLE_LEAVE).1.trade_centre_state = TRADE_RANDOM ∧
    (getTradeCentreResponse
        (runState initState (0 :: List.replicate 10 SERIAL_PREAMBLE_BYTE))
        PKMN_TABLE_LEAVE).1.trade_centre_state ≠ TRADE_RESET ∧
    (getTradeCentreResponse
        (runState initState (0 :: List.replicate 10 SERIAL_PREAMBLE_BYTE))
        PKMN_TABLE_LEAVE).1.counter = 1 := by
  decide

/-- C8 amended: in the pending phase a leave-table byte resets the phase to
the initial reset phase, emits the leave byte back, and returns the status to
ready; the stale counter is then cleared by the reset phase on the very next
byte, before any use.  In the random-seed phase the leave byte is not
special: the machine stays in that phase and counts the byte like any other
seed byte. -/
theorem C8_leave_table (t : TradeState) (h : t.trade_centre_state = TRADE_PENDING)
    (t2 : TradeState) (h2 : t2.trade_centre_state = TRADE_RANDOM)
    (h2c : t2.counter + 1 ≠ 19) (b : Nat) :
    (getTradeCentreResponse t PKMN_TABLE_LEAVE).1.trade_centre_state = TRADE_RESET ∧
    (getTradeCentreResponse t PKMN_TABLE_LEAVE).2 = PKMN_TABLE_LEAVE ∧
    (getTradeCentreResponse t PKMN_TABLE_LEAVE).1.gameboy_status = GAMEBOY_READY ∧
    (getTradeCentreResponse (getTradeCentreResponse t PKMN_TABLE_LEAVE).1 b).1.counter
        = 0 ∧
    (getTradeCentreResponse
        (getTradeCentreResponse t PKMN_TABLE_LEAVE).1 b).1.trade_centre_state
        = TRADE_INIT ∧
    (getTradeCentreResponse t2 PKMN_TABLE_LEAVE).1.trade_centre_state = TRADE_RANDOM ∧
    (getTradeCentreResponse t2 PKMN_TABLE_LEAVE).1.counter = t2.counter + 1 := by
  rw [step_pending t h, pending_leave t PKMN_TABLE_LEAVE]
  dsimp only
  rw [step_reset
      { t with trade_centre_state := TRADE_RESET, gameboy_status := GAMEBOY_READY } rfl b,
    random_step_mid t2 h2 PKMN_TABLE_LEAVE h2c]
  exact ⟨rfl, rfl, rfl, rfl, rfl, h2, rfl⟩

/-- Witness for the amended C8 at concrete pending and random states. -/
theorem C8_witness :
    (getTradeCentreResponse pendingPhaseState PKMN_TABLE_LEAVE).1.trade_centre_state
        = TRADE_RESET ∧
    (getTradeCentreResponse pendingPhaseState PKMN_TABLE_LEAVE).1.gameboy_status
        = GAMEBOY_READY :=
  ⟨(C8_leave_table pendingPhaseState rfl randomPhaseState rfl (by decide) 0).1,
    (C8_leave_table pendingPhaseState rfl randomPhaseState rfl (by decide) 0).2.2.1⟩

/-- C9 counterexample: a rising clock edge arriving after a gap exceeding the
desync threshold leaves the output accumulator untouched (here 7 rather than
0), refuting the claim that both accumulators are forced to zero. -/
theorem C9_counterexample :
    (1000000 + 2 ^ 32 - linkTestState.time) % 2 ^ 32 > 32000 ∧
    (input_clk_gameboy linkTestState true false 1000000 32000).out_data = 7 ∧
    (input_clk_gameboy linkTestState true false 1000000 32000).out_data ≠ 0 := by
  decide

/-- C9 amended: a rising edge after an idle gap exceeding the threshold is
treated as a fresh byte start: the input accumulator and the bit counter are
zeroed before the edge is processed, so afterwards the bit counter is one and
the input accumulator holds exactly the sampled bit, regardless of the prior
accumulated bit count; the output accumulator and protocol state are left
unchanged, not zeroed. -/
theorem C9_desync_reset (l : LinkState) (siBit : Bool) (now thr : Nat)
    (hgap : (now + 2 ^ 32 - l.time) % 2 ^ 32 > thr) :
    (input_clk_gameboy l true siBit now thr).in_data = (if siBit then 1 else 0) ∧
    (input_clk_gameboy l true siBit now thr).shift = 1 ∧
    (input_clk_gameboy l true siBit now thr).out_data = l.out_data ∧
    (input_clk_gameboy l true siBit now thr).trade = l.trade ∧
    (input_clk_gameboy l true siBit now thr).time = now := by
  have hgap2 : thr < (now + 4294967296 - l.time) % 4294967296 := by simpa using hgap
  cases siBit <;> simp [input_clk_gameboy, transferBit, hgap2]

/-- Witness for the amended C9 at a concrete mid-byte link state. -/
theorem C9_witness :
    (input_clk_gameboy linkTestState true false 1000000 32000).shift = 1 ∧
    (input_clk_gameboy linkTestState true false 1000000 32000).out_data
        = linkTestState.out_data :=
  ⟨(C9_desync_reset linkTestState false 1000000 32000 (by decide)).2.1,
    (C9_desync_reset linkTestState false 1000000 32000 (by decide)).2.2.1⟩

/-- C10: while the status is not-connected (role negotiation) or
connected-in-menu (menu mirroring), processing an input byte leaves the whole
trade-centre session state — the phase, the counters and flags, both blocks,
the patch list, the table and the pending-rebuild flag — unchanged; only the
status projection and the returned byte may change. -/
theorem C10_menu_handlers_frame (t : TradeState) (b : Nat)
    (h : t.gameboy_status = GAMEBOY_CONN_FALSE ∨ t.gameboy_status = GAMEBOY_CONN_TRUE) :
    (processByte t b).1.trade_centre_state = t.trade_centre_state ∧
    (processByte t b).1.counter = t.counter ∧
    (processByte t b).1.patch_pt_2 = t.patch_pt_2 ∧
    (processByte t b).1.in_pokemon_num = t.in_pokemon_num ∧
    (processByte t b).1.trade_block = t.trade_block ∧
    (processByte t b).1.input_block = t.input_block ∧
    (processByte t b).1.patch_list = t.patch_list ∧
    (processByte t b).1.pokemon_table = t.pokemon_table ∧
    (processByte t b).1.curr_pokemon = t.curr_pokemon ∧
    (processByte t b).1.plist_recreate_pending = t.plist_recreate_pending := by
  rcases h with h | h <;>
    simp only [processByte, h, getConnectResponse, getMenuResponse] <;>
    split_ifs <;> simp_all

/-- Witness for C10 at a concrete not-connected state. -/
theorem C10_witness :
    (processByte initState 0).1.trade_centre_state = initState.trade_centre_state ∧
    (processByte initState 0).1.counter = initState.counter :=
  ⟨(C10_menu_handlers_frame initState 0 (Or.inl rfl)).1,
    (C10_menu_handlers_frame initState 0 (Or.inl rfl)).2.1⟩

end PkmnTrade
